import Mathlib

/-!
Verification of the smartbcr2k control-surface router.

This file gives a shallow embedding of the parts of the code that the
testable properties talk about:

* `util.clip` and Python numeric conversion (`util/__init__.py`);
* the per-control state machines `Control` and `Button` (`controls.py`);
* the control address space `ccc2ID` / `ID2ccc` (`devices.py`);
* one iteration of the `Shell` worker loop (`util/threadshell.py`);
* `ValueTarget`, `Parameter` and the modifier tick engine
  (`targets/target.py`, `targets/parameter.py`, `modifiers/modifier.py`);
* the view/target router `Interface` (`interface.py`): `from_input`,
  `from_output`, `switch_to_view`, `add_view`, `reflect_all_on_input`,
  `reflect_target_on_input`, `make_profile`, `load_profile`.

Numbers are embedded as `Int` where Python works with ints and as `Rat`
where Python float arithmetic enters (modifier offsets); the statements
proved here only rely on additions and multiplications by dyadic
constants, which are exact in both representations.
-/

set_option autoImplicit false

namespace SmartBCR

/-! ## util/__init__.py -/

/-- Python `clip(minval, maxval, value)` is `sorted((minval, value, maxval))[1]`,
the median of the three arguments (written here by the standard median-of-three
formula). -/
def clip {α : Type} [LinearOrder α] (minval maxval value : α) : α :=
  max (min minval value) (min (max minval value) maxval)

/-- Python `int(x)` applied to the possibly fractional value of a modified
target: truncation toward zero. -/
def pyInt (q : Rat) : Int :=
  if 0 ≤ q then q.floor else -(Rat.floor (-q))

/-! ## controls.py -/

/-- Side channels a `Control` can write to through its parent device
(`ControlParent.send_to_device` / `ControlParent.control_changed`). -/
inductive DeviceEffect
  | sendToDevice (ID value : Int)
  | controlChanged (ID : Int) (state : Bool)
deriving DecidableEq, Repr

/-- Embedding of `controls.Control`: `_value` is the stored value, clipped on `set_value`. -/
structure Control where
  ID : Int
  minval : Int
  maxval : Int
  blink : Bool
  value : Int
deriving DecidableEq, Repr

/-- Embedding of `Control.set_value`: clip the requested value into `[minval, maxval]`,
store it and report the assumed value back to the caller. -/
def Control.set_value (c : Control) (value : Int) : Control × Option Int :=
  let v := clip c.minval c.maxval value
  ({ c with value := v }, some v)

/-- Embedding of `controls.Button`: a button in toggle or momentary mode; `ignore` is the
countdown of hardware events to swallow while emulating a toggle. -/
structure Button where
  ID : Int
  minval : Int
  maxval : Int
  blink : Bool
  value : Int
  toggle : Bool
  state : Bool
  ignore : Nat
deriving DecidableEq, Repr

/-- Embedding of `Button.set_value`.  While `ignore > 0` the event is swallowed (`None` is
returned and the current `_value` is re-sent to the hardware).  In toggle mode
only a `maxval` press at rest or a `minval` release while on changes state; in
momentary mode the raw value is stored. -/
def Button.set_value (b : Button) (value : Int) :
    Button × Option Int × List DeviceEffect :=
  if b.ignore > 0 then
    ({ b with ignore := b.ignore - 1 }, none, [.sendToDevice b.ID b.value])
  else if b.toggle then
    let b1 :=
      if value = b.maxval ∧ b.state = false then
        { b with value := b.maxval, state := true, ignore := 2 }
      else if value = b.minval ∧ b.state = true then
        { b with value := b.minval, state := false }
      else
        b
    (b1, some b1.value, [])
  else
    ({ b with state := decide (value = b.maxval), value := value }, some value, [])

/-! ## devices.py: the control address space -/

/-- Embedding of `devices.ccc2ID`: enumerate all (channel, cc) pairs, shifted by page and
device number blocks of `128 * 16` IDs. -/
def ccc2ID (channel cc page device_number : Int) : Int :=
  ((channel - 1) * 128 + cc + device_number * 128 * 16) + page * 128 * 16

/-- Embedding of `devices.ID2ccc`: strip the device block, wrap into one page
(`ID %= 128 * 16`) and split into channel and cc.  the operators `%` and `/` on
`Int` in Lean are Euclidean, which agrees with `%` and `//` in Python for the
positive divisors used here. -/
def ID2ccc (ID device_number : Int) : Int × Int :=
  let i1 := ID - device_number * 128 * 16
  let i2 := i1 % (128 * 16)
  (i2 / 128 + 1, i2 % 128)

/-! ## util/threadshell.py: one iteration of `Shell._main_loop`

A queued call is represented by the outcome of executing it: `Except.ok v`
for a call that returns `v`, `Except.error e` for a call that raises.  Each
call owns a `ShellResult` slot; the loop body does `result.put(call(...))`,
so the slot receives `some v` exactly when the call returned normally. -/

/-- Outcome of executing one queued call (`call(*args, **kwargs)`). -/
abbrev QueuedCall := Except String Int

/-- One iteration of the worker loop. `next slots logged` means the loop goes
on to the next iteration (`logged` records an `eprint`ed tick exception);
`crashed e slots` means exception `e` escaped `_main_loop`, terminating the
worker thread.  `slots` holds, per queued call, the value put into its result
slot this iteration (`none`: nothing was put). -/
inductive LoopOutcome
  | next (slots : List (Option Int)) (logged : Option String)
  | crashed (e : String) (slots : List (Option Int))
deriving DecidableEq, Repr

/-- The drain loop `while max_calls > 0: call, result, ... = q.get_nowait();
result.put(call(...))`.  Only `queue.Empty` is caught, so the first call that
raises aborts the drain with its exception; its slot and the slots of all
unprocessed calls stay empty. -/
def runCalls : Nat → List QueuedCall → Except (String × List (Option Int)) (List (Option Int))
  | 0, rest => .ok (rest.map fun _ => none)
  | _ + 1, [] => .ok []
  | n + 1, (.ok v) :: rest =>
    match runCalls n rest with
    | .ok slots => .ok (some v :: slots)
    | .error (e, slots) => .error (e, some v :: slots)
  | _ + 1, (.error e) :: rest => .error (e, none :: rest.map fun _ => none)

/-- One iteration of `Shell._main_loop`: drain up to 50 queued calls, then run
the periodic update `self._u()` inside `try/except Exception`, logging the
exception with `eprint` and continuing.  An exception from a queued call is
not caught (only `Empty` is) and escapes the loop. -/
def mainLoopIter (queue : List QueuedCall) (tick : Except String Unit) : LoopOutcome :=
  match runCalls 50 queue with
  | .ok slots =>
    match tick with
    | .ok _ => .next slots none
    | .error e => .next slots (some e)
  | .error (e, slots) => .crashed e slots

/-! ## targets/target.py and modifiers/modifier.py

Modifier offset tables are Python dicts keyed by the modifier object; targets
carry process-unique names (duplicate names are rejected by
`Interface.add_target`), so the tables are embedded as association lists
keyed by name.  Dict assignment keeps the position of an existing key and
appends a new one, which `setEntry` mirrors. -/

/-- Python dict assignment `d[k] = v`: replace in place, else append. -/
def setEntry (l : List (String × Rat)) (k : String) (v : Rat) : List (String × Rat) :=
  match l with
  | [] => [(k, v)]
  | (k0, v0) :: rest => if k0 = k then (k, v) :: rest else (k0, v0) :: setEntry rest k v

/-- Embedding of `targets.target.ValueTarget`: `center` is `_value`; `modifiers` is the
per-modifier additive offset table. -/
structure ValueTarget where
  name : String
  center : Rat
  minimum : Rat
  maximum : Rat
  modifiers : List (String × Rat)
deriving DecidableEq, Repr

/-- The `ValueTarget.value` property: the center value plus the sum of all
modifier offsets, clipped to `[minimum, maximum]` and truncated by `int`. -/
def ValueTarget.value (t : ValueTarget) : Int :=
  pyInt (clip t.minimum t.maximum (t.center + (t.modifiers.map Prod.snd).sum))

/-- Embedding of `ValueTarget.modify(modifier, value)`: store the offset under the
key of the modifier.  The subsequent `self.trigger(modifier)` runs with
`value=None`, and `Interface.target_triggered` ignores `None` values, so for
a plain `ValueTarget` it has no further effect. -/
def ValueTarget.modify (t : ValueTarget) (modName : String) (v : Rat) : ValueTarget :=
  { t with modifiers := setEntry t.modifiers modName v }

/-- Embedding of `modifiers.modifier.Modifier`: `value` is `_value` (the waveform sample),
`amplitude` is `_amplitude`, `targets` maps each modified target (by its
unique name) to a power in `[-1, 1]`.  `typeTag` records the concrete
subclass name (`type(self).__name__`), used by `serialize`. -/
structure Modifier where
  name : String
  typeTag : String
  amplitude : Rat
  value : Rat
  targets : List (String × Rat)
deriving DecidableEq, Repr

/-- Embedding of `Modifier.modvalue`: the current value multiplied by the amplitude. -/
def Modifier.modvalue (m : Modifier) : Rat := m.value * m.amplitude

/-- Update the named target in a heap of targets (the Python objects are
mutated in place; the heap models that shared state). -/
def updateHeap (h : List (String × ValueTarget)) (k : String)
    (f : ValueTarget → ValueTarget) : List (String × ValueTarget) :=
  h.map (fun e => if e.1 = k then (e.1, f e.2) else e)

/-- Embedding of `Modifier.tick(time_report)`: store the freshly calculated waveform sample
(`self._value = self.calculate(time_report)` — the waveform formula itself is
a pluggable subclass method, so the sample arrives here as the argument
`newValue`), then apply `target.modify(self, modvalue * power)` to every
registered target. -/
def Modifier.tick (m : Modifier) (newValue : Rat)
    (heap : List (String × ValueTarget)) : Modifier × List (String × ValueTarget) :=
  let m1 := { m with value := newValue }
  let mv := m1.modvalue
  let heap1 := m1.targets.foldl
    (fun h tp => updateHeap h tp.1 (fun t => t.modify m1.name (mv * tp.2))) heap
  (m1, heap1)

/-- Embedding of `Modifier.target(target, power)`: power `0.0` deletes the entry
(`del` on a missing key raises `KeyError`, which is caught), any other power
stores it. -/
def Modifier.targetSet (m : Modifier) (tname : String) (power : Rat) : Modifier :=
  if power = 0 then { m with targets := m.targets.filter (fun e => ¬e.1 = tname) }
  else { m with targets := setEntry m.targets tname power }

/-! ## targets/parameter.py and interface.py: the router

Senders are compared with `Shell.__eq__`, which unwraps the shell and
compares the wrapped object (`self._o == other`), so the input Device shell,
the output Device shell and anything else (a modifier reporting through
`target_triggered`) are three distinguishable identities: -/

/-- Which peer a trigger originated from, as decided by `Shell.__eq__`
comparisons against `self.parent.input` / `self.parent.output`. -/
inductive Sender
  | input
  | output
  | intern
deriving DecidableEq, Repr

/-- Calls the `Interface` issues to the outside while routing: a CC to the
output peer (`Interface.to_output`), a queued `set_control` on the input
device shell (`Interface._set_control`), a `control.configure` on an input
control during a view switch, and the observer callback at the end of
`switch_to_view`. -/
inductive Effect
  | toOutput (channel cc value : Int)
  | setInput (ID value : Int) (force : Bool)
  | configureControl (ID : Int)
  | observerView (viewName : String) (isNew : Bool)
deriving DecidableEq, Repr

/-- Recognize a forward to the output peer. -/
def Effect.isToOutput : Effect → Bool
  | .toOutput _ _ _ => true
  | _ => false

/-- Recognize a reflected value on the input device. -/
def Effect.isSetInput : Effect → Bool
  | .setInput _ _ _ => true
  | _ => false

/-- Embedding of `targets.parameter.Parameter`: a `ValueTarget` bound to a
(channel, cc) address on the output peer. -/
structure Parameter extends ValueTarget where
  channel : Int
  cc : Int
  is_button : Bool
deriving DecidableEq, Repr

/-- The inherited `value` property. -/
def Parameter.value (p : Parameter) : Int :=
  p.toValueTarget.value

/-- Embedding of `Parameter.is_connected_to_output(channel, cc)`. -/
def Parameter.is_connected_to_output (p : Parameter) (channel cc : Int) : Bool :=
  channel = p.channel ∧ cc = p.cc

/-- Embedding of `Parameter.trigger(sender, value)`.  With modifiers present the incoming
value moves the center (`assume_center_value`); otherwise it is stored
directly, with button values normalized to 0/127.  The value is forwarded to
the output peer unless the sender *is* the output peer
(`if sender != self.parent.output`), and `Target.trigger` reports to
`Interface.target_triggered` only for senders that are neither peer.  The
`target_triggered` report is internal to the Interface and produces no
external call for the `input`/`output` senders handled below, so it is not
recorded as an `Effect`.  Returns the updated parameter, the external calls
made, and the returned `self.value`. -/
def Parameter.trigger (p : Parameter) (sender : Sender) (value : Option Int) :
    Parameter × List Effect × Int :=
  let p1 :=
    match value with
    | some v =>
      if p.modifiers ≠ [] then
        { p with center := p.center + ((v : Rat) - (p.value : Rat)) }
      else
        let v1 : Int := if p.is_button then (if v ≠ 0 then 127 else 0) else v
        { p with center := (v1 : Rat) }
    | none => p
  let outEffs : List Effect :=
    if sender ≠ Sender.output then [.toOutput p1.channel p1.cc p1.value] else []
  (p1, outEffs, p1.value)

/-- Embedding of `Target.trigger_vals` is `list(range(128))`; `from_input`/`from_output`
accept a value only if `unify(value)` is in it. -/
def triggerValsRange (value : Int) : Prop :=
  0 ≤ value ∧ value < 128

instance (value : Int) : Decidable (triggerValsRange value) := by
  unfold triggerValsRange
  infer_instance

/-- Per-control behaviour overrides held in `View.configuration`
(a copy of `Control.default_conf`, possibly extended by `toggle` for
buttons). -/
structure ControlConf where
  minval : Int
  maxval : Int
  blink : Bool
  toggle : Option Bool
deriving DecidableEq, Repr

/-- Embedding of `interface.View`: a name, per-control configuration, and the map from
control IDs to the list of mapped targets (a `defaultdict(list)`).  The
target universe of this embedding is `Parameter`, the value-bearing target
kind all the routing claims are about; the map stores the target objects
themselves, aliased across views through their unique names. -/
structure View where
  name : String
  configuration : List (Int × ControlConf)
  map : List (Int × List Parameter)
deriving DecidableEq, Repr

/-- Embedding of `View.find_IDs_by_target`: all IDs whose target list contains the given
target (`==` on targets is object identity, which the unique-name invariant
turns into name equality; `Parameter.is_connected_to` is inherited from
`Target` and always `False`). -/
def View.find_IDs_by_target (vw : View) (name : String) : List Int :=
  (vw.map.filter (fun e => e.2.any (fun p => p.name = name))).map Prod.fst

/-- Embedding of `View.map_this(ID, t)`: `self.map[ID].append(t)` on a `defaultdict`. -/
def View.map_this (vw : View) (ID : Int) (p : Parameter) : View :=
  if vw.map.any (fun e => e.1 = ID) then
    { vw with map := vw.map.map (fun e => if e.1 = ID then (e.1, e.2 ++ [p]) else e) }
  else
    { vw with map := vw.map ++ [(ID, [p])] }

/-- Replace every occurrence of the named target by the given object (the
Python objects are shared: mutating a target updates it under every ID in
every view simultaneously). -/
def replaceByName (p1 : Parameter) (l : List Parameter) : List Parameter :=
  l.map (fun q => if q.name = p1.name then p1 else q)

/-- Write back a mutated target into one view. -/
def View.storeTarget (vw : View) (p1 : Parameter) : View :=
  { vw with map := vw.map.map (fun e => (e.1, replaceByName p1 e.2)) }

/-- Python exceptions surfaced by the embedded code. -/
inductive PyErr
  | keyError
  | attributeError
  | typeError (msg : String)
deriving DecidableEq, Repr

/-- Embedding of `interface.Interface`: input/output device shells (reduced to their names
and the control IDs of the input device), the target registry, the active view, the view
catalog, the modifier set and the two maker counters. -/
structure Interface where
  inputName : String
  outputName : String
  inputControls : List Int
  targets : List (String × Parameter)
  view : Option View
  views : List View
  modifiers : List Modifier
  next_cc : Int
  next_view_index : Int
deriving DecidableEq, Repr

/-- Write back a mutated target object everywhere it is aliased:
in the registry, in the active view and in every catalogued view. -/
def Interface.storeTarget (s : Interface) (p1 : Parameter) : Interface :=
  { s with
    targets := s.targets.map (fun e => if e.1 = p1.name then (e.1, p1) else e),
    view := s.view.map (fun vw => vw.storeTarget p1),
    views := s.views.map (fun vw => vw.storeTarget p1) }

/-- Replace the active view object (in Python `self.view` aliases an entry of
`self.views`; mutating it updates both). -/
def Interface.setActiveView (s : Interface) (vw1 : View) : Interface :=
  { s with
    view := some vw1,
    views := s.views.map (fun w => if w.name = vw1.name then vw1 else w) }

/-- Embedding of `Interface.add_target`: reject duplicate names, otherwise append to the
registry dict. -/
def Interface.add_target (s : Interface) (p : Parameter) : Interface :=
  if s.targets.any (fun e => e.1 = p.name) then s
  else { s with targets := s.targets ++ [(p.name, p)] }

/-- Embedding of `Interface.reflect_target_on_input(target, exclude_IDs)`: one queued
`set_control(ID, target.value)` for every ID the active view maps to the
target, minus the excluded IDs. -/
def reflectTargetEffects (vw : View) (p : Parameter) (exclude : List Int) : List Effect :=
  (vw.find_IDs_by_target p.name).filterMap
    (fun ID => if ID ∈ exclude then none else some (.setInput ID p.value false))

/-- The shared target object as it currently stands in the registry (loop
iterations observe the mutations of earlier iterations through the shared
object). -/
def currentTarget (s : Interface) (p : Parameter) : Parameter :=
  (s.targets.lookup p.name).getD p

/-- Embedding of `reflect_target_on_input` against the currently active view. -/
def activeReflect (s : Interface) (p : Parameter) (exclude : List Int) : List Effect :=
  match s.view with
  | some vw => reflectTargetEffects vw p exclude
  | none => []

/-- The loop body of `Interface.from_input` over the targets mapped to the
triggering ID.  Each iteration re-reads the shared target object from the
registry, triggers it, publishes the mutation, writes the real value back to
the originating control if it differs from the sent one (otherwise only the
`recent_changes` cache is touched), and reflects the target on every other
mapped control. -/
def fromInputLoop (s : Interface) (sender : Sender) (ID : Int)
    (ps : List Parameter) (value : Int) : Interface × List Effect :=
  match ps with
  | [] => (s, [])
  | p :: rest =>
    if triggerValsRange value then
      let tr := (currentTarget s p).trigger sender (some value)
      let s1 := s.storeTarget tr.1
      let setEffs : List Effect :=
        if tr.2.2 ≠ value then [.setInput ID tr.2.2 false] else []
      let next := fromInputLoop s1 sender ID rest value
      (next.1, tr.2.1 ++ setEffs ++ activeReflect s1 tr.1 [ID] ++ next.2)
    else
      fromInputLoop s sender ID rest value

/-- Embedding of `Interface.from_input(sender, ID, value)`.  The map is a
`defaultdict(list)`, so the lookup never raises: a missing ID is inserted
with an empty list (the `except KeyError` branch printing "No target
configured" is unreachable). -/
def Interface.from_input (s : Interface) (sender : Sender) (ID value : Int) :
    Except PyErr (Interface × List Effect) :=
  match s.view with
  | none => .error .attributeError
  | some vw =>
    let targets := (vw.map.lookup ID).getD []
    let vw1 := if vw.map.any (fun e => e.1 = ID) then vw
               else { vw with map := vw.map ++ [(ID, [])] }
    .ok (fromInputLoop (s.setActiveView vw1) sender ID targets value)

/-- The scan in `Interface.from_output`: every target in the map of the active
view whose output address matches, in map order (a target mapped under
several IDs is collected once per ID, as in the source). -/
def connectedTargets (vw : View) (channel cc : Int) : List Parameter :=
  (vw.map.map Prod.snd).flatten.filter (fun p => p.is_connected_to_output channel cc)

/-- The loop body of `Interface.from_output` over the matching targets:
trigger (the sender being the output shell) and reflect the change on the
input device, excluding nothing. -/
def fromOutputLoop (s : Interface) (ps : List Parameter) (value : Int) :
    Interface × List Effect :=
  match ps with
  | [] => (s, [])
  | p :: rest =>
    if triggerValsRange value then
      let tr := (currentTarget s p).trigger Sender.output (some value)
      let s1 := s.storeTarget tr.1
      let next := fromOutputLoop s1 rest value
      (next.1, tr.2.1 ++ activeReflect s1 tr.1 [] ++ next.2)
    else
      fromOutputLoop s rest value

/-- Embedding of `Interface.from_output(sender, channel, cc, value)` (the `assert` pins
the sender to the output shell). -/
def Interface.from_output (s : Interface) (channel cc value : Int) :
    Except PyErr (Interface × List Effect) :=
  match s.view with
  | none => .error .attributeError
  | some vw => .ok (fromOutputLoop s (connectedTargets vw channel cc) value)

/-- Embedding of `Interface.add_view`: if no catalogued view carries the name yet, append
the view and register every target appearing in its map.  Returns whether the
view was new. -/
def Interface.add_view (s : Interface) (vw : View) : Interface × Bool :=
  if s.views.any (fun v => v.name = vw.name) then (s, false)
  else
    let s1 := { s with views := s.views ++ [vw] }
    let s2 := vw.map.foldl (fun acc e => e.2.foldl (fun a p => a.add_target p) acc) s1
    (s2, true)

/-- The inner loop of `Interface.reflect_all_on_input` over one map entry:
for every mapped target that has a `value` attribute (every `Parameter`
does), force-set the control and `untouched.remove(ID)` — `set.remove`
raises `KeyError` when the ID has already been removed. -/
def reflectEntry (ID : Int) (ps : List Parameter) (untouched : List Int) :
    Except PyErr (List Effect × List Int) :=
  match ps with
  | [] => .ok ([], untouched)
  | p :: rest =>
    if ID ∈ untouched then
      match reflectEntry ID rest (untouched.erase ID) with
      | .ok (effs, u) => .ok (.setInput ID p.value true :: effs, u)
      | .error e => .error e
    else
      .error .keyError

/-- The outer loop of `Interface.reflect_all_on_input` over the map of the view. -/
def reflectAllLoop (entries : List (Int × List Parameter)) (untouched : List Int) :
    Except PyErr (List Effect × List Int) :=
  match entries with
  | [] => .ok ([], untouched)
  | (ID, ps) :: rest =>
    match reflectEntry ID ps untouched with
    | .ok (effs, u) =>
      match reflectAllLoop rest u with
      | .ok (effs2, u2) => .ok (effs ++ effs2, u2)
      | .error e => .error e
    | .error e => .error e

/-- Embedding of `Interface.reflect_all_on_input`: reflect the value of every mapped target
onto its control (forced), then zero every control left untouched. -/
def Interface.reflect_all_on_input (s : Interface) : Except PyErr (List Effect) :=
  match s.view with
  | none => .error .attributeError
  | some vw =>
    match reflectAllLoop vw.map s.inputControls with
    | .ok (effs, untouched) => .ok (effs ++ untouched.map (fun ID => .setInput ID 0 true))
    | .error e => .error e

/-- Argument of `switch_to_view`: a `View` object or a view name. -/
inductive ViewRef
  | byName (name : String)
  | byView (vw : View)
deriving Repr

/-- Embedding of `Interface.switch_to_view(view)`: resolve a name (raising `KeyError`
unless exactly one catalogued view matches), return immediately when the view
is already active (`View.__eq__` compares names), otherwise activate it,
reconfigure every input control that has an entry in the configuration of the
view, catalogue it if new, and reflect all targets on the input
device. -/
def Interface.switch_to_view (s : Interface) (r : ViewRef) :
    Except PyErr (Interface × List Effect) := do
  let vw ← match r with
    | .byName n =>
      match s.views.filter (fun v => v.name = n) with
      | [v] => Except.ok v
      | _ => Except.error PyErr.keyError
    | .byView v => Except.ok v
  let alreadyActive : Bool := match s.view with
    | some v0 => v0.name == vw.name
    | none => false
  if alreadyActive then
    return (s, [])
  let s1 := { s with view := some vw }
  let confEffs := s1.inputControls.filterMap
    (fun ID => if (vw.configuration.lookup ID).isSome
               then some (Effect.configureControl ID) else none)
  let av := s1.add_view vw
  let reflEffs ← av.1.reflect_all_on_input
  return (av.1, confEffs ++ reflEffs ++ [Effect.observerView vw.name av.2])

/-! ## interface.py: profiles -/

/-- The record `Parameter.serialize(ID)` produces (`Target.serialize` plus
the Parameter fields). -/
structure TargetRecord where
  name : String
  type : String
  ID : Int
  cc : Int
  channel : Int
  value : Int
  is_button : Bool
deriving DecidableEq, Repr

/-- Embedding of `Parameter.serialize(ID)`. -/
def Parameter.serialize (p : Parameter) (ID : Int) : TargetRecord :=
  { name := p.name, type := "Parameter", ID := ID, cc := p.cc,
    channel := p.channel, value := p.value, is_button := p.is_button }

/-- Embedding of `Parameter.blank(parent)`. -/
def Parameter.blank : Parameter :=
  { name := "unnamed", center := 0, minimum := 0, maximum := 127,
    modifiers := [], channel := 1, cc := 0, is_button := false }

/-- Embedding of `Parameter.from_dict(d)`: `Target.from_dict` sets the name, then the
Parameter fields are restored (`self.value = d["value"]` goes through the
value setter, writing the center). -/
def Parameter.from_dict (p : Parameter) (d : TargetRecord) : Parameter :=
  { p with
    name := d.name, channel := d.channel, cc := d.cc,
    center := (d.value : Rat), is_button := d.is_button }

/-- Embedding of `Modifier.serialize()` (base-class fields; the `Basic` subclass appends
waveform attributes that are never reached by `load_profile`, see
`modifier_blank_call`). -/
structure ModifierRecord where
  amplitude : Rat
  type : String
  name : String
  targets : List (String × Rat)
deriving DecidableEq, Repr

/-- Embedding of `Modifier.serialize()`. -/
def Modifier.serialize (m : Modifier) : ModifierRecord :=
  { amplitude := m.amplitude, type := m.typeTag, name := m.name,
    targets := m.targets }

/-- Embedding of `Modifier.from_dict(m, all_targets)`: restore name and amplitude, then
hook up every serialized target that resolves in the registry
(`except KeyError: continue`) via `Modifier.target`. -/
def Modifier.from_dict (m0 : Modifier) (m : ModifierRecord)
    (all_targets : List (String × Parameter)) : Modifier :=
  let m1 := { m0 with name := m.name, amplitude := m.amplitude }
  m.targets.foldl
    (fun acc tp =>
      match all_targets.lookup tp.1 with
      | none => acc
      | some _ => acc.targetSet tp.1 tp.2) m1

/-- A serialized view: name, configuration, and one serialized record per
(ID, target) pair of the map. -/
structure ViewRecord where
  name : String
  configuration : List (Int × ControlConf)
  map : List TargetRecord
deriving DecidableEq, Repr

/-- The full record `Interface.make_profile` produces. -/
structure Profile where
  input : String
  output : String
  next_cc : Int
  next_view_index : Int
  active_view : String
  views : List ViewRecord
  modifiers : List ModifierRecord
  profileName : String
deriving DecidableEq, Repr

/-- Serialize one view for `make_profile`. -/
def serializeView (vw : View) : ViewRecord :=
  { name := vw.name, configuration := vw.configuration,
    map := (vw.map.map (fun e => e.2.map (fun p => p.serialize e.1))).flatten }

/-- Embedding of `Interface.make_profile()` (reads `self.view.name`, so the active view
must be set). -/
def Interface.make_profile (s : Interface) : Except PyErr Profile :=
  match s.view with
  | none => .error .attributeError
  | some vw =>
    .ok { input := s.inputName, output := s.outputName, next_cc := s.next_cc,
          next_view_index := s.next_view_index, active_view := vw.name,
          views := s.views.map serializeView,
          modifiers := s.modifiers.map Modifier.serialize,
          profileName := "Default Profile" }

/-- The `TARGETS` catalogue lookup `get_target(name)` (restricted to the
target universe of this embedding); unknown type tags raise `KeyError`,
which `load_profile` catches and skips. -/
def get_target (name : String) : Except PyErr Unit :=
  if name = "Parameter" then .ok () else .error .keyError

/-- The `MODIFIERS` catalogue lookup `get_modifier(name)`: the catalogue
holds the `Modifier` subclasses `Basic` and `StepSequencer`; unknown names
raise `KeyError`. -/
def get_modifier (name : String) : Except PyErr Unit :=
  if name = "Basic" ∨ name = "StepSequencer" then .ok () else .error .keyError

/-- The call `mod = M()` in `Interface.load_profile`, where `M` is the class
fetched from the `MODIFIERS` catalogue.  `Modifier.__init__(self, name,
amplitude=MAX_MOD)` and `Basic.__init__(self, name, frequency=0.25, ...)`
both declare `name` as a required positional parameter, so calling the class
with no arguments raises `TypeError`.  Only the `KeyError` of `get_modifier`
is caught by the surrounding `try`, so this exception propagates out of
`load_profile`. -/
def modifier_blank_call : Except PyErr Modifier :=
  .error (.typeError "Modifier init missing required positional argument: name")

/-- One record of a serialized view map during `load_profile`: reuse the
registry object if the name is known, otherwise resolve the type tag
(`except KeyError: continue` skips unknown tags), build a blank target,
restore it and register it; finally `view.map_this(t["ID"], target)`. -/
def loadViewEntry (st : Interface × View) (t : TargetRecord) : Interface × View :=
  match st.1.targets.lookup t.name with
  | some target => (st.1, st.2.map_this t.ID target)
  | none =>
    match get_target t.type with
    | .error _ => st
    | .ok _ =>
      let target := Parameter.blank.from_dict t
      (st.1.add_target target, st.2.map_this t.ID target)

/-- Embedding of `Interface.load_profile(p)`: restore the maker counters, rebuild the view
catalog from scratch (the target registry is *not* cleared), recreate the
modifiers, and activate the recorded active view by name.  The modifier loop
calls `M()` (see `modifier_blank_call`). -/
def Interface.load_profile (s : Interface) (p : Profile) :
    Except PyErr (Interface × List Effect) := do
  let s1 := { s with next_cc := p.next_cc, next_view_index := p.next_view_index,
                     views := [], view := none }
  let s2 := p.views.foldl
    (fun st v =>
      let built := v.map.foldl loadViewEntry
        (st, { name := v.name, configuration := v.configuration, map := [] })
      { built.1 with views := built.1.views ++ [built.2] }) s1
  let s3 ← p.modifiers.foldlM
    (fun (st : Interface) m =>
      match get_modifier m.type with
      | .error _ => pure st
      | .ok _ => do
        let mod0 ← modifier_blank_call
        let mod1 := mod0.from_dict m st.targets
        pure { st with modifiers := st.modifiers ++ [mod1] }) s2
  s3.switch_to_view (.byName p.active_view)

/-! ## Concrete fixtures used to instantiate the theorems -/

/-- Outcome projection: did the worker loop survive the iteration? -/
def LoopOutcome.isNext : LoopOutcome → Bool
  | .next _ _ => true
  | .crashed _ _ => false

/-- Outcome projection: the tick exception logged this iteration, if any. -/
def LoopOutcome.loggedErr : LoopOutcome → Option String
  | .next _ logged => logged
  | .crashed _ _ => none

/-- A momentary button (`toggle=False`) with the default 0..127 range. -/
def momentaryButton : Button :=
  { ID := 0, minval := 0, maxval := 127, blink := false, value := 0,
    toggle := false, state := false, ignore := 0 }

/-- A toggle button at rest. -/
def restingToggleButton : Button :=
  { ID := 0, minval := 0, maxval := 127, blink := false, value := 0,
    toggle := true, state := false, ignore := 0 }

/-- A `Parameter` bound to (channel 1, cc 5). -/
def wParam1 : Parameter :=
  { name := "P1", center := 10, minimum := 0, maximum := 127,
    modifiers := [], channel := 1, cc := 5, is_button := false }

/-- A `Parameter` bound to (channel 1, cc 6). -/
def wParam2 : Parameter :=
  { name := "P2", center := 20, minimum := 0, maximum := 127,
    modifiers := [], channel := 1, cc := 6, is_button := false }

/-- A view mapping control 3 to `wParam1` and control 4 to `wParam2`. -/
def wView : View :=
  { name := "Init", configuration := [], map := [(3, [wParam1]), (4, [wParam2])] }

/-- A second view, with a configuration entry for control 3. -/
def wView2 : View :=
  { name := "V2",
    configuration := [(3, { minval := 0, maxval := 127, blink := false, toggle := none })],
    map := [(3, [wParam1])] }

/-- A small router state with `wView` active. -/
def wInterface : Interface :=
  { inputName := "BCR2k", outputName := "VirtualMidi", inputControls := [3, 4],
    targets := [("P1", wParam1), ("P2", wParam2)], view := some wView,
    views := [wView], modifiers := [], next_cc := 3, next_view_index := 1 }

/-- The result of pushing value 64 for (channel 1, cc 5) through
`from_output` on the fixture. -/
def wOutPair : Interface × List Effect :=
  (wInterface.from_output 1 5 64).toOption.getD (wInterface, [])

/-- The result of pushing value 64 for control 3 through `from_input` on the
fixture. -/
def wInPair : Interface × List Effect :=
  (wInterface.from_input Sender.input 3 64).toOption.getD (wInterface, [])

/-- The result of switching the fixture to `wView2`. -/
def wSwitchPair : Interface × List Effect :=
  (wInterface.switch_to_view (.byView wView2)).toOption.getD (wInterface, [])

/-- A fan-out view: control 3 drives both parameters. -/
def fanView : View :=
  { name := "Fan", configuration := [], map := [(3, [wParam1, wParam2])] }

/-- A `Basic` modifier modulating `wParam1` at full power. -/
def c6Mod : Modifier :=
  { name := "LFO", typeTag := "Basic", amplitude := 127, value := 0,
    targets := [("P1", 1)] }

/-- The router fixture extended with one modifier (for the profile
round trip). -/
def c6Interface : Interface :=
  { wInterface with modifiers := [c6Mod] }

/-- An unmodified value target for the modifier-additivity instance. -/
def wModTarget : ValueTarget :=
  { name := "T", center := 60, minimum := 0, maximum := 127, modifiers := [] }

/-- A modifier at power `0.5` on `wModTarget`. -/
def wModA : Modifier :=
  { name := "MA", typeTag := "Basic", amplitude := 100, value := 0,
    targets := [("T", (1 : Rat) / 2)] }

/-- A modifier at power `-0.5` on `wModTarget`. -/
def wModB : Modifier :=
  { name := "MB", typeTag := "Basic", amplitude := 50, value := 0,
    targets := [("T", -((1 : Rat) / 2))] }

/-! ## Helper lemmas -/

/-- The median-of-three clip stays inside `[a, b]` whenever `a ≤ b`. -/
theorem clip_bounds {α : Type} [LinearOrder α] (a b v : α) (h : a ≤ b) :
    a ≤ clip a b v ∧ clip a b v ≤ b := by
  constructor
  · exact le_max_of_le_right (le_min (le_max_left a v) h)
  · exact max_le (le_trans (min_le_left a v) h) (min_le_right _ b)

/-- An all-successful queue drains without an escaping exception. -/
theorem runCalls_ok_of_all_ok (n : Nat) (q : List QueuedCall)
    (h : ∀ c ∈ q, ∃ v, c = Except.ok v) :
    ∃ slots, runCalls n q = Except.ok slots := by
  induction n generalizing q with
  | zero => exact ⟨q.map fun _ => none, rfl⟩
  | succ n ih =>
    match q with
    | [] => exact ⟨[], rfl⟩
    | c :: rest =>
      obtain ⟨v, rfl⟩ := h c (List.mem_cons_self c rest)
      obtain ⟨slots, hs⟩ := ih rest (fun c hc => h c (List.mem_cons_of_mem _ hc))
      exact ⟨some v :: slots, by simp [runCalls, hs]⟩

/-- A raising call within the drain budget aborts the drain; its slot and all
later slots stay empty. -/
theorem runCalls_error_at (pre : List Int) (e : String) (rest : List QueuedCall)
    (n : Nat) (h : pre.length < n) :
    runCalls n (pre.map Except.ok ++ Except.error e :: rest) =
      Except.error (e, pre.map some ++ none :: rest.map fun _ => none) := by
  induction pre generalizing n with
  | nil =>
    match n, h with
    | n + 1, _ => simp [runCalls]
  | cons v pre ih =>
    match n, h with
    | n + 1, h =>
      have := ih n (by simpa using h)
      simp [runCalls, this]

/-! ## C5 -/

/-- C5: for every channel in [1,16], number in [0,127] and page, converting
with `ccc2ID` and back with `ID2ccc` returns the original (channel, number)
pair. -/
theorem address_bijection (channel cc page : Int)
    (h1 : 1 ≤ channel) (h2 : channel ≤ 16) (h3 : 0 ≤ cc) (h4 : cc ≤ 127) :
    ID2ccc (ccc2ID channel cc page 0) page = (channel, cc) := by
  unfold ID2ccc ccc2ID
  simp only [Prod.mk.injEq]
  norm_num
  constructor <;> omega

/-- Witness for C5 at (channel 7, number 42, page 1). -/
theorem address_bijection_witness :
    ID2ccc (ccc2ID 7 42 1 0) 1 = (7, 42) :=
  address_bijection 7 42 1 (by decide) (by decide) (by decide) (by decide)

/-! ## C3 -/

/-- C3 counterexample: a momentary button stores an out-of-range input
unclipped, violating `minval ≤ value ≤ maxval`. -/
theorem clipping_counterexample :
    (momentaryButton.set_value 200).1.value = 200 ∧
    ¬((momentaryButton.set_value 200).1.value ≤ (momentaryButton.set_value 200).1.maxval) := by
  decide

/-- C3 (amended): after `set_value` the stored value satisfies
`minval ≤ value ≤ maxval` for every base `Control` (which clips), and for
every `Button` provided its previous value is in range and — in momentary
mode — the input value is in range; a momentary `Button` stores out-of-range
inputs unclipped. -/
theorem clipping_invariant :
    (∀ (c : Control) (v : Int), c.minval ≤ c.maxval →
      c.minval ≤ (c.set_value v).1.value ∧ (c.set_value v).1.value ≤ c.maxval) ∧
    (∀ (b : Button) (v : Int), b.minval ≤ b.value → b.value ≤ b.maxval →
      (b.toggle = true ∨ (b.minval ≤ v ∧ v ≤ b.maxval)) →
      b.minval ≤ (b.set_value v).1.value ∧ (b.set_value v).1.value ≤ b.maxval) := by
  constructor
  · intro c v h
    exact clip_bounds c.minval c.maxval v h
  · intro b v h1 h2 h3
    unfold Button.set_value
    split
    · exact ⟨h1, h2⟩
    · split
      · split
        · simp only
          constructor
          · omega
          · omega
        · split
          · simp only
            omega
          · exact ⟨h1, h2⟩
      · rcases h3 with h3 | h3
        · simp_all
        · simp only
          omega

/-- Witness for C3 (amended) on a clipping dial and on the toggle fixture. -/
theorem clipping_invariant_witness :
    (0 ≤ (Control.set_value { ID := 0, minval := 0, maxval := 127, blink := false, value := 0 } 300).1.value ∧
      (Control.set_value { ID := 0, minval := 0, maxval := 127, blink := false, value := 0 } 300).1.value ≤ 127) ∧
    (0 ≤ (restingToggleButton.set_value 200).1.value ∧
      (restingToggleButton.set_value 200).1.value ≤ 127) :=
  ⟨clipping_invariant.1 { ID := 0, minval := 0, maxval := 127, blink := false, value := 0 } 300 (by decide),
   clipping_invariant.2 restingToggleButton 200 (by decide) (by decide) (Or.inl (by decide))⟩

/-! ## C4 -/

/-- C4: a toggle button at rest fed `[maxval, minval, maxval, minval]` flips
its logical state to `True` exactly once (on the first event), keeps it
through the two suppressed intermediate events (whose `set_value` returns
`None`), and flips back to `False` exactly once on the last event. -/
theorem toggle_suppression (b : Button)
    (htog : b.toggle = true) (hstate : b.state = false) (hign : b.ignore = 0) :
    ((b.set_value b.maxval).2.1 = some b.maxval ∧
      (b.set_value b.maxval).1.state = true) ∧
    (((b.set_value b.maxval).1.set_value b.minval).2.1 = none ∧
      ((b.set_value b.maxval).1.set_value b.minval).1.state = true) ∧
    ((((b.set_value b.maxval).1.set_value b.minval).1.set_value b.maxval).2.1 = none ∧
      (((b.set_value b.maxval).1.set_value b.minval).1.set_value b.maxval).1.state = true) ∧
    (((((b.set_value b.maxval).1.set_value b.minval).1.set_value b.maxval).1.set_value b.minval).2.1 = some b.minval ∧
      ((((b.set_value b.maxval).1.set_value b.minval).1.set_value b.maxval).1.set_value b.minval).1.state = false) := by
  simp [Button.set_value, htog, hstate, hign]

/-- Witness for C4 on the resting toggle fixture. -/
theorem toggle_suppression_witness :
    ((restingToggleButton.set_value restingToggleButton.maxval).2.1 = some restingToggleButton.maxval ∧
      (restingToggleButton.set_value restingToggleButton.maxval).1.state = true) ∧
    (((restingToggleButton.set_value restingToggleButton.maxval).1.set_value restingToggleButton.minval).2.1 = none ∧
      ((restingToggleButton.set_value restingToggleButton.maxval).1.set_value restingToggleButton.minval).1.state = true) ∧
    ((((restingToggleButton.set_value restingToggleButton.maxval).1.set_value restingToggleButton.minval).1.set_value restingToggleButton.maxval).2.1 = none ∧
      (((restingToggleButton.set_value restingToggleButton.maxval).1.set_value restingToggleButton.minval).1.set_value restingToggleButton.maxval).1.state = true) ∧
    (((((restingToggleButton.set_value restingToggleButton.maxval).1.set_value restingToggleButton.minval).1.set_value restingToggleButton.maxval).1.set_value restingToggleButton.minval).2.1 = some restingToggleButton.minval ∧
      ((((restingToggleButton.set_value restingToggleButton.maxval).1.set_value restingToggleButton.minval).1.set_value restingToggleButton.maxval).1.set_value restingToggleButton.minval).1.state = false) :=
  toggle_suppression restingToggleButton rfl rfl rfl

/-! ## C2 -/

/-- C2 counterexample: a queued call that raises does not deliver anything to
its result slot; the exception escapes `_main_loop` and the worker crashes
instead of continuing. -/
theorem shell_call_exception_counterexample :
    mainLoopIter [Except.error "boom"] (Except.ok ()) =
      LoopOutcome.crashed "boom" [none] ∧
    (mainLoopIter [Except.error "boom"] (Except.ok ())).isNext = false :=
  ⟨rfl, rfl⟩

/-- C2 (amended): an exception in the periodic tick is caught, logged and the
worker loop continues; an exception inside a queued call is *not* delivered
through the result slot of the call — it escapes the drain loop (only `Empty` is
caught) and terminates the worker, leaving the slot of the raising call and all
later slots empty. -/
theorem worker_exception_semantics :
    (∀ (queue : List QueuedCall) (e : String),
      (∀ c ∈ queue, ∃ v, c = Except.ok v) →
      (mainLoopIter queue (Except.error e)).isNext = true ∧
      (mainLoopIter queue (Except.error e)).loggedErr = some e) ∧
    (∀ (pre : List Int) (e : String) (rest : List QueuedCall) (tick : Except String Unit),
      pre.length < 50 →
      mainLoopIter (pre.map Except.ok ++ Except.error e :: rest) tick =
        LoopOutcome.crashed e (pre.map some ++ none :: rest.map fun _ => none)) := by
  constructor
  · intro queue e h
    obtain ⟨slots, hs⟩ := runCalls_ok_of_all_ok 50 queue h
    simp [mainLoopIter, hs, LoopOutcome.isNext, LoopOutcome.loggedErr]
  · intro pre e rest tick h
    have hr := runCalls_error_at pre e rest 50 h
    simp [mainLoopIter, hr]

/-- Witness for C2 (amended): a failing tick is survived and logged; a
failing queued call crashes the worker with an empty slot. -/
theorem worker_exception_semantics_witness :
    ((mainLoopIter [Except.ok 7] (Except.error "tick")).isNext = true ∧
      (mainLoopIter [Except.ok 7] (Except.error "tick")).loggedErr = some "tick") ∧
    mainLoopIter [Except.error "kaput"] (Except.ok ()) =
      LoopOutcome.crashed "kaput" [none] :=
  ⟨worker_exception_semantics.1 [Except.ok 7] "tick"
      (by intro c hc; simp only [List.mem_singleton] at hc; exact ⟨7, hc⟩),
   worker_exception_semantics.2 [] "kaput" [] (Except.ok ()) (by decide)⟩

/-! ## C7 -/

/-- The `ValueTarget` produced by ticking `wModA` then `wModB` over the
fixture target. -/
def wModFinal : ValueTarget :=
  (((wModB.tick ((4 : Rat) / 5) (wModA.tick ((2 : Rat) / 5) [("T", wModTarget)]).2).2).lookup "T").getD wModTarget

/-- C7: the effective value of a ValueTarget is its center value plus the sum of
all per-modifier offsets, clipped to its range; in particular, after two
modifiers with equal `modvalue` and powers `0.5` and `-0.5` both tick, the
offsets cancel exactly and the effective value equals the unmodified base
value. -/
theorem modifier_additivity :
    (∀ t : ValueTarget,
      t.value = pyInt (clip t.minimum t.maximum (t.center + (t.modifiers.map Prod.snd).sum))) ∧
    (∀ (t : ValueTarget) (m1 m2 : Modifier) (w1 w2 : Rat) (t2 : ValueTarget),
      t.modifiers = [] →
      m1.name ≠ m2.name →
      m1.targets = [(t.name, (1 : Rat) / 2)] →
      m2.targets = [(t.name, -((1 : Rat) / 2))] →
      w1 * m1.amplitude = w2 * m2.amplitude →
      ((m2.tick w2 (m1.tick w1 [(t.name, t)]).2).2).lookup t.name = some t2 →
      t2.value = t.value) := by
  refine ⟨fun t => rfl, ?_⟩
  intro t m1 m2 w1 w2 t2 hmods hne ht1 ht2 heq hlook
  simp only [Modifier.tick, Modifier.modvalue, updateHeap, ValueTarget.modify,
    setEntry, ht1, ht2, hmods, List.foldl_cons, List.foldl_nil, List.map_cons,
    List.map_nil, if_pos, List.lookup] at hlook
  simp only [hne, ite_false, ite_true, beq_self_eq_true, if_true] at hlook
  rw [Option.some_inj] at hlook
  subst hlook
  simp only [ValueTarget.value, hmods, List.map_nil, List.map_cons, List.sum_cons,
    List.sum_nil]
  have hsum : w1 * m1.amplitude * ((1 : Rat) / 2) + (w2 * m2.amplitude * (-((1 : Rat) / 2)) + 0) = 0 := by
    rw [heq]
    ring
  rw [hsum]

/-- Witness for C7 on the fixture target and modifiers (equal modvalue 40,
powers 0.5 and -0.5). -/
theorem modifier_additivity_witness :
    wModFinal.value = wModTarget.value :=
  modifier_additivity.2 wModTarget wModA wModB ((2 : Rat) / 5) ((4 : Rat) / 5) wModFinal
    rfl (by decide) rfl rfl (by norm_num [wModA, wModB]) rfl

/-! ## Router helper lemmas -/

/-- The target-registry invariant: each registry entry stores a target under
its own name (`self.targets[target.name] = target`). -/
def Interface.Wf (s : Interface) : Prop :=
  ∀ e ∈ s.targets, e.2.name = e.1

instance (s : Interface) : Decidable s.Wf := by
  unfold Interface.Wf
  infer_instance

/-- Looking up a key in an association list returns a pair of the list. -/
theorem pair_mem_of_lookup {α : Type} [DecidableEq String]
    (l : List (String × α)) (k : String) (v : α)
    (h : l.lookup k = some v) : (k, v) ∈ l := by
  induction l with
  | nil => simp [List.lookup] at h
  | cons e rest ih =>
    rw [List.lookup] at h
    cases hk : (k == e.1) with
    | true =>
      simp only [hk] at h
      obtain ⟨e1, e2⟩ := e
      have hk2 : k = e1 := by simpa using hk
      have hv : e2 = v := by simpa using h
      subst hv
      subst hk2
      exact List.mem_cons_self _ _
    | false =>
      simp only [hk] at h
      exact List.mem_cons_of_mem _ (ih h)

/-- Under `Wf`, fetching the current version of a target by its name
preserves the name. -/
theorem lookup_name (s : Interface) (p : Parameter) (hwf : s.Wf) :
    ((s.targets.lookup p.name).getD p).name = p.name := by
  cases h : s.targets.lookup p.name with
  | none => rfl
  | some q =>
    have := hwf (p.name, q) (pair_mem_of_lookup _ _ _ h)
    simpa using this

/-- Embedding of `Parameter.trigger` never changes the name of the target. -/
theorem trigger_name (p : Parameter) (sender : Sender) (v : Option Int) :
    (p.trigger sender v).1.name = p.name := by
  unfold Parameter.trigger
  cases v with
  | none => rfl
  | some w =>
    by_cases h : p.modifiers ≠ []
    · simp [h]
    · simp [h]

/-- Triggering with the output peer as sender forwards nothing
(`if sender != self.parent.output` fails, `Shell.__eq__` comparing the
wrapped device objects). -/
theorem trigger_output_effs (p : Parameter) (v : Option Int) :
    (p.trigger Sender.output v).2.1 = [] := by
  unfold Parameter.trigger
  simp

/-- Triggering with the input peer as sender forwards to the output peer
exactly once. -/
theorem trigger_input_count (p : Parameter) (v : Option Int) :
    ((p.trigger Sender.input v).2.1).countP Effect.isToOutput = 1 := by
  unfold Parameter.trigger
  simp [Effect.isToOutput, List.countP_cons]

/-- Reflections are `set_control` calls on the input shell, never forwards
to the output peer. -/
theorem countP_isToOutput_reflect (vw : View) (p : Parameter) (ex : List Int) :
    (reflectTargetEffects vw p ex).countP Effect.isToOutput = 0 := by
  rw [List.countP_eq_zero]
  intro e he
  rw [reflectTargetEffects, List.mem_filterMap] at he
  obtain ⟨ID, _, he⟩ := he
  split at he
  · exact absurd he (by simp)
  · rw [Option.some_inj] at he
    subst he
    simp [Effect.isToOutput]

/-- Every non-excluded mapped ID receives a reflected `set_control`. -/
theorem mem_reflect (vw : View) (p : Parameter) (ex : List Int) (ID : Int)
    (hID : ID ∈ vw.find_IDs_by_target p.name) (hex : ID ∉ ex) :
    Effect.setInput ID p.value false ∈ reflectTargetEffects vw p ex := by
  rw [reflectTargetEffects, List.mem_filterMap]
  exact ⟨ID, hID, by rw [if_neg hex]⟩

/-- Replacing a target by its mutated version preserves the names present in
a map entry. -/
theorem any_replaceByName (p : Parameter) (l : List Parameter) (n : String) :
    (replaceByName p l).any (fun q => q.name = n) = l.any (fun q => q.name = n) := by
  induction l with
  | nil => rfl
  | cons q rest ih =>
    simp only [replaceByName, List.map_cons, List.any_cons] at *
    rw [ih]
    by_cases h : q.name = p.name
    · simp [h]
    · simp [h]

/-- Publishing a mutated target does not change which IDs a view associates
with any target name. -/
theorem find_IDs_storeTarget (vw : View) (p : Parameter) (n : String) :
    (vw.storeTarget p).find_IDs_by_target n = vw.find_IDs_by_target n := by
  unfold View.find_IDs_by_target View.storeTarget
  simp only
  induction vw.map with
  | nil => rfl
  | cons e rest ih =>
    simp only [List.map_cons, List.filter_cons, any_replaceByName]
    split
    · simpa using ih
    · simpa using ih

/-- Embedding of `storeTarget` keeps the registry invariant. -/
theorem Wf_storeTarget (s : Interface) (p : Parameter) (hwf : s.Wf) :
    (s.storeTarget p).Wf := by
  intro e he
  simp only [Interface.storeTarget, List.mem_map] at he
  obtain ⟨e0, he0, heq⟩ := he
  by_cases h : e0.1 = p.name
  · rw [if_pos h] at heq
    subst heq
    simpa using h.symm
  · rw [if_neg h] at heq
    subst heq
    exact hwf e0 he0

/-- The loop invariant carried through the routing loops: a well-formed
registry and an active view whose target-to-ID association agrees with the
view the loop was started from. -/
def RouterInv (s : Interface) (vw : View) : Prop :=
  s.Wf ∧ ∃ vwc, s.view = some vwc ∧
    ∀ n, vwc.find_IDs_by_target n = vw.find_IDs_by_target n

/-- Embedding of `storeTarget` preserves the loop invariant. -/
theorem RouterInv_store (s : Interface) (vw : View) (p : Parameter)
    (h : RouterInv s vw) : RouterInv (s.storeTarget p) vw := by
  obtain ⟨hwf, vwc, hv, hids⟩ := h
  refine ⟨Wf_storeTarget s p hwf, vwc.storeTarget p, ?_, ?_⟩
  · simp [Interface.storeTarget, hv]
  · intro n
    rw [find_IDs_storeTarget]
    exact hids n

/-- Reflections against the active view contain no forwards to the output
peer. -/
theorem countP_isToOutput_activeReflect (s : Interface) (p : Parameter) (ex : List Int) :
    (activeReflect s p ex).countP Effect.isToOutput = 0 := by
  unfold activeReflect
  split
  · apply countP_isToOutput_reflect
  · rfl

/-- Under the loop invariant, every non-excluded ID associated with a target
receives a reflected `set_control` on the input device. -/
theorem mem_activeReflect (s : Interface) (vw : View) (p : Parameter)
    (ex : List Int) (ID : Int) (hinv : RouterInv s vw)
    (hID : ID ∈ vw.find_IDs_by_target p.name) (hex : ID ∉ ex) :
    Effect.setInput ID p.value false ∈ activeReflect s p ex := by
  obtain ⟨_, vwc, hv, hids⟩ := hinv
  unfold activeReflect
  rw [hv]
  exact mem_reflect vwc p ex ID (by rw [hids]; exact hID) hex

/-- The `from_output` loop forwards nothing to the output peer. -/
theorem fromOutputLoop_countP (value : Int) (ps : List Parameter) :
    ∀ s : Interface, ((fromOutputLoop s ps value).2).countP Effect.isToOutput = 0 := by
  induction ps with
  | nil => intro s; rfl
  | cons p rest ih =>
    intro s
    rw [fromOutputLoop]
    split
    · dsimp only
      simp only [List.countP_append, trigger_output_effs,
        countP_isToOutput_activeReflect, ih, List.countP_nil]
    · exact ih s

/-- The `from_output` loop reflects every triggered target onto all of its
mapped input controls. -/
theorem fromOutputLoop_reflects (value : Int) (vw : View) (ps : List Parameter) :
    ∀ s : Interface, RouterInv s vw → triggerValsRange value →
      ∀ p ∈ ps, ∀ ID ∈ vw.find_IDs_by_target p.name,
        ∃ v, Effect.setInput ID v false ∈ (fromOutputLoop s ps value).2 := by
  induction ps with
  | nil =>
    intro s _ _ p hp
    exact absurd hp (List.not_mem_nil p)
  | cons q rest ih =>
    intro s hinv htrig p hp ID hID
    rw [fromOutputLoop, if_pos htrig]
    dsimp only
    have hinv1 := RouterInv_store s vw ((currentTarget s q).trigger Sender.output (some value)).1 hinv
    rcases List.mem_cons.mp hp with rfl | hp2
    · refine ⟨((currentTarget s p).trigger Sender.output (some value)).1.value, ?_⟩
      apply List.mem_append_left
      apply List.mem_append_right
      have hname : ((currentTarget s p).trigger Sender.output (some value)).1.name = p.name := by
        rw [trigger_name]
        exact lookup_name s p hinv.1
      apply mem_activeReflect _ vw _ _ _ hinv1 _ (by simp)
      rw [hname]
      exact hID
    · obtain ⟨v, hv⟩ := ih _ hinv1 htrig p hp2 ID hID
      exact ⟨v, List.mem_append_right _ hv⟩

/-- Each admitted value writes at most the real value back to the
originating control — never a forward to the output peer. -/
theorem countP_isToOutput_setEffs (b : Prop) [Decidable b] (ID v : Int) :
    (if b then [Effect.setInput ID v false] else ([] : List Effect)).countP
      Effect.isToOutput = 0 := by
  split <;> simp [List.countP_cons, Effect.isToOutput]

/-- The `from_input` loop forwards to the output peer exactly once per
triggered target: once for each mapped target when the value passes the
`trigger_vals` filter, and never otherwise. -/
theorem fromInputLoop_countP (ID value : Int) (ps : List Parameter) :
    ∀ s : Interface,
      ((fromInputLoop s Sender.input ID ps value).2).countP Effect.isToOutput =
        if triggerValsRange value then ps.length else 0 := by
  induction ps with
  | nil => intro s; simp [fromInputLoop]
  | cons p rest ih =>
    intro s
    rw [fromInputLoop]
    split
    · rename_i h
      dsimp only
      simp only [List.countP_append, trigger_input_count,
        countP_isToOutput_activeReflect, countP_isToOutput_setEffs, ih]
      simp [h]
      omega
    · rename_i h
      rw [ih, if_neg h]

/-! ## C1 -/

/-- C1: a value arriving from the output peer through `from_output` is never
forwarded back to the output peer (no `toOutput` effect at all), while every
matching triggered Parameter is reflected onto each input control mapped to
it; a value arriving from the input peer is forwarded to the output peer
exactly once per triggered Parameter. -/
theorem echo_suppression :
    (∀ (s : Interface) (vw : View) (channel cc value : Int) (s1 : Interface) (effs : List Effect),
      s.view = some vw → s.Wf →
      s.from_output channel cc value = Except.ok (s1, effs) →
      effs.countP Effect.isToOutput = 0 ∧
      (triggerValsRange value →
        ∀ p ∈ connectedTargets vw channel cc, ∀ ID ∈ vw.find_IDs_by_target p.name,
          ∃ v, Effect.setInput ID v false ∈ effs)) ∧
    (∀ (s : Interface) (vw : View) (ID value : Int) (s1 : Interface) (effs : List Effect),
      s.view = some vw →
      s.from_input Sender.input ID value = Except.ok (s1, effs) →
      effs.countP Effect.isToOutput =
        if triggerValsRange value then ((vw.map.lookup ID).getD []).length else 0) := by
  constructor
  · intro s vw channel cc value s1 effs hview hwf h
    simp only [Interface.from_output, hview, Except.ok.injEq] at h
    have he : (fromOutputLoop s (connectedTargets vw channel cc) value).2 = effs :=
      congrArg Prod.snd h
    constructor
    · rw [← he]
      exact fromOutputLoop_countP value _ s
    · intro htrig p hp ID hID
      have hinv : RouterInv s vw := ⟨hwf, vw, hview, fun n => rfl⟩
      obtain ⟨v, hv⟩ := fromOutputLoop_reflects value vw _ s hinv htrig p hp ID hID
      exact ⟨v, he ▸ hv⟩
  · intro s vw ID value s1 effs hview h
    simp only [Interface.from_input, hview, Except.ok.injEq] at h
    have he : (fromInputLoop
        (s.setActiveView (if vw.map.any (fun e => e.1 = ID) then vw
          else { vw with map := vw.map ++ [(ID, [])] }))
        Sender.input ID ((vw.map.lookup ID).getD []) value).2 = effs :=
      congrArg Prod.snd h
    rw [← he]
    exact fromInputLoop_countP ID value _ _

/-- Witness for C1 on the fixture: the output push produces no forward to
the output peer, the input push produces exactly one. -/
theorem echo_suppression_witness :
    wOutPair.2.countP Effect.isToOutput = 0 ∧
    wInPair.2.countP Effect.isToOutput = 1 := by
  constructor
  · exact (echo_suppression.1 wInterface wView 1 5 64 wOutPair.1 wOutPair.2 rfl
      (by decide) rfl).1
  · exact (echo_suppression.2 wInterface wView 3 64 wInPair.1 wInPair.2 rfl rfl).trans
      (by decide)

/-! ## C8 -/

/-- Registering a target never touches the active view. -/
theorem add_target_view (s : Interface) (p : Parameter) :
    (s.add_target p).view = s.view := by
  unfold Interface.add_target
  split <;> rfl

/-- Registering a list of targets never touches the active view. -/
theorem foldl_add_target_view (l : List Parameter) :
    ∀ acc : Interface, (l.foldl (fun a p => a.add_target p) acc).view = acc.view := by
  induction l with
  | nil => intro acc; rfl
  | cons p rest ih =>
    intro acc
    rw [List.foldl_cons, ih, add_target_view]

/-- Registering all targets of a view map never touches the active view. -/
theorem foldl_entries_view (entries : List (Int × List Parameter)) :
    ∀ acc : Interface,
      (entries.foldl (fun acc e => e.2.foldl (fun a p => a.add_target p) acc) acc).view
        = acc.view := by
  induction entries with
  | nil => intro acc; rfl
  | cons e rest ih =>
    intro acc
    rw [List.foldl_cons, ih, foldl_add_target_view]

/-- Embedding of `add_view` never touches the active view. -/
theorem add_view_view (s : Interface) (vw : View) :
    (s.add_view vw).1.view = s.view := by
  unfold Interface.add_view
  split
  · rfl
  · dsimp only
    rw [foldl_entries_view]

/-- Switching to a view whose name matches the active one returns
immediately with no effects. -/
theorem switch_noop (s : Interface) (vw v0 : View)
    (hv : s.view = some v0) (hname : v0.name = vw.name) :
    s.switch_to_view (.byView vw) = Except.ok (s, []) := by
  unfold Interface.switch_to_view
  simp [Bind.bind, Except.bind, pure, Except.pure, hv, hname]

/-- C8: once `switch_to_view(V)` has succeeded, calling it again with the
same view is a no-op: the early `self.view == view` return fires, so no
control is reconfigured, no catalog entry is added, and no reflect traffic
is produced. -/
theorem view_switch_idempotent (s : Interface) (vw : View) (s1 : Interface)
    (effs : List Effect)
    (h : s.switch_to_view (.byView vw) = Except.ok (s1, effs)) :
    s1.switch_to_view (.byView vw) = Except.ok (s1, []) := by
  by_cases hact : (match s.view with
    | some v0 => v0.name == vw.name
    | none => false) = true
  · unfold Interface.switch_to_view at h
    simp only [Bind.bind, Except.bind, pure, Except.pure, hact, if_true] at h
    rw [Except.ok.injEq, Prod.mk.injEq] at h
    obtain ⟨rfl, -⟩ := h
    cases hv : s.view with
    | none => rw [hv] at hact; exact absurd hact (by simp)
    | some v0 =>
      rw [hv] at hact
      exact switch_noop s vw v0 hv (by simpa using hact)
  · unfold Interface.switch_to_view at h
    simp only [Bind.bind, Except.bind, pure, Except.pure, hact, Bool.false_eq_true,
      if_false] at h
    cases hr : (({ s with view := some vw } : Interface).add_view vw).1.reflect_all_on_input with
    | error e =>
      rw [hr] at h
      simp at h
    | ok reflEffs =>
      rw [hr] at h
      dsimp only at h
      rw [Except.ok.injEq, Prod.mk.injEq] at h
      obtain ⟨hs1, -⟩ := h
      have hview1 : s1.view = some vw := by
        rw [← hs1, add_view_view]
      exact switch_noop s1 vw vw hview1 rfl

/-- Witness for C8: switching the fixture to `wView2` and then switching
again is a no-op. -/
theorem view_switch_idempotent_witness :
    wSwitchPair.1.switch_to_view (.byView wView2) = Except.ok (wSwitchPair.1, []) :=
  view_switch_idempotent wInterface wView2 wSwitchPair.1 wSwitchPair.2 rfl

/-! ## C10 -/

/-- A key absent from an association list looks up to `none`. -/
theorem lookup_eq_none_of_forall {α : Type} (l : List (Int × α)) (ID : Int)
    (h : ∀ e ∈ l, e.1 ≠ ID) : l.lookup ID = none := by
  induction l with
  | nil => rfl
  | cons e rest ih =>
    rw [List.lookup]
    have hne : (ID == e.1) = false := by
      simp only [beq_eq_false_iff_ne, ne_eq]
      exact fun hh => h e (List.mem_cons_self e rest) hh.symm
    rw [hne]
    exact ih (fun e2 he2 => h e2 (List.mem_cons_of_mem _ he2))

/-- A key absent from the map makes the `any` membership test false. -/
theorem any_eq_false_of_forall (l : List (Int × List Parameter)) (ID : Int)
    (h : ∀ e ∈ l, e.1 ≠ ID) : l.any (fun e => e.1 = ID) = false := by
  rw [List.any_eq_false]
  intro e he
  simpa using h e he

/-- C10: an event for a control ID with no mapping in the active view
triggers nothing, issues no effect and raises no exception; the
`defaultdict` lookup merely inserts an empty list for the ID (so the
`KeyError` branch printing "No target configured" is unreachable). -/
theorem unmapped_id_noop (s : Interface) (vw : View) (ID value : Int)
    (hview : s.view = some vw) (h : ∀ e ∈ vw.map, e.1 ≠ ID) :
    s.from_input Sender.input ID value =
      Except.ok (s.setActiveView { vw with map := vw.map ++ [(ID, [])] }, []) := by
  simp only [Interface.from_input, hview, lookup_eq_none_of_forall vw.map ID h,
    any_eq_false_of_forall vw.map ID h, Option.getD_none, Bool.false_eq_true,
    if_false]
  rfl

/-- Witness for C10: control 99 is unmapped in the fixture view. -/
theorem unmapped_id_noop_witness :
    wInterface.from_input Sender.input 99 64 =
      Except.ok (wInterface.setActiveView { wView with map := wView.map ++ [(99, [])] }, []) :=
  unmapped_id_noop wInterface wView 99 64 rfl (by decide)

/-! ## C9 -/

/-- C9: on a view that maps one control ID to two value-bearing targets,
`switch_to_view` does not complete: `reflect_all_on_input` calls
`untouched.remove(ID)` once per value-bearing target of the entry, and the
second removal raises `KeyError`, which propagates out of the switch. -/
theorem fanout_reflect_keyerror :
    wInterface.switch_to_view (.byView fanView) = Except.error PyErr.keyError ∧
    ({ wInterface with view := some fanView } : Interface).reflect_all_on_input =
      Except.error PyErr.keyError :=
  ⟨rfl, rfl⟩

/-! ## C6 -/

/-- C6: `load_profile(make_profile())` raises `TypeError` as soon as the
profile contains a modifier, because `load_profile` instantiates the
modifier class with `M()` while every `Modifier` constructor requires a
positional `name` argument; the round trip therefore fails for any state
with a nonempty modifier set. -/
theorem profile_roundtrip_modifier_failure :
    c6Interface.modifiers = [c6Mod] ∧
    (c6Interface.make_profile >>= c6Interface.load_profile) =
      Except.error (PyErr.typeError "Modifier init missing required positional argument: name") :=
  ⟨rfl, rfl⟩

end SmartBCR
